import Mathlib

/-!
Shallow embedding of the `arogez/allocators` library (C header files) and
verification of its specification.

The embedding follows the cited sources, first variants:
`src/bit.h`, `src/heap.h`, `src/buddy.h`, `src/block.h`, the intrusive list
header (`src/unnamed/part_005`) and the scratch allocator
(`src/unnamed/part_003`).

Modelling conventions:
* Machine pointers are natural numbers (byte addresses); the C `NULL` is `0`.
* Machine integers are `Nat` with explicit `% 2^w` where C wrap-around
  matters (`uint8_t` casts, `uint32_t` arithmetic in `bit.h`).
* `sizeof(void *) = 8` and `sizeof(struct buddy_block_meta) = 16`
  (a `uint8_t` field padded to the 8-byte alignment of the `void *` field),
  as on the LP64 targets the repository is written for.
* The per-order freelists (`struct list` heads over intrusive nodes stored in
  the free blocks themselves) are modelled as `List Nat` of block addresses;
  `list_push` keeps the C guard that pushing `NULL` is a no-op.
* The pair-status bitset (`uint32_t *` accessed through the `bit.h` macros)
  is modelled as a total function `Nat → Bool` from bit index to bit value.
* `malloc` is modelled by an oracle `mall : Nat → Option Nat` mapping a size
  to the address it returns (`none` = allocation failure); the C struct
  `struct buddy_heap`'s `nodes` array, which `buddy_heap_init` never writes
  except for `nodes[0]`, is taken to be zero-initialised (empty lists), as it
  is for static storage or a `{0}` initialiser.
-/

namespace Allocators

/-- Pointwise update of a function out of `Nat`, used for array/struct-field
assignment in the embedding. -/
def upd {α : Type} (f : Nat → α) (k : Nat) (v : α) : Nat → α :=
  fun i => if i = k then v else f i

/-- `x & ~(a - 1)` for a power of two `a`: clear the low bits of `x`.
Written exactly as the masking the C performs, `x - (x & (a - 1))`,
which for `a = 2^e` equals rounding `x` down to a multiple of `a`. -/
def alignDown (x a : Nat) : Nat :=
  x - Nat.land x (a - 1)

/-! ## bit.h -/

/-- The De Bruijn table `bit_position_lookup` of `trailing_zeros_count`
(`src/bit.h` lines 20-24). -/
def bit_position_lookup : List Nat :=
  [0, 1, 28, 2, 29, 14, 24, 3, 30, 22, 20, 15, 25, 17, 4, 8,
   31, 27, 13, 23, 21, 19, 16, 7, 26, 12, 18, 6, 11, 5, 10, 9]

/-- `trailing_zeros_count` (`src/bit.h` lines 17-27): count of trailing zero
bits of a `uint32_t` via De Bruijn multiplication.  `a & -a` on `uint32_t` is
`a &&& (2^32 - a) % 2^32`; the product is truncated to 32 bits and shifted
right by 27. -/
def trailing_zeros_count (a : Nat) : Nat :=
  let a := a % 2 ^ 32
  bit_position_lookup.getD (((Nat.land a ((2 ^ 32 - a) % 2 ^ 32) * 0x077CB531) % 2 ^ 32) >>> 27) 0

/-- `pow2_roundup` (`src/bit.h` lines 30-41): round a `uint32_t` up to the
next power of two by the or-shift cascade.  The initial `a--` wraps on
`unsigned`. -/
def pow2_roundup (a : Nat) : Nat :=
  let a := (a + 2 ^ 32 - 1) % 2 ^ 32
  let a := a ||| (a >>> 1)
  let a := a ||| (a >>> 2)
  let a := a ||| (a >>> 4)
  let a := a ||| (a >>> 8)
  let a := a ||| (a >>> 16)
  (a + 1) % 2 ^ 32

/-- The `bit_switch` macro (`src/bit.h` line 12): toggle one bit of the
bitset. -/
def bit_switch (m : Nat → Bool) (b : Nat) : Nat → Bool :=
  upd m b (! m b)

/-! ## list.h (src/unnamed/part_005): intrusive singly linked list -/

/-- `list_push`: push at head; pushing `NULL` is a no-op. -/
def list_push (l : List Nat) (p : Nat) : List Nat :=
  if p = 0 then l else p :: l

/-- `list_pop`: drop the head node (no-op on an empty list). -/
def list_pop (l : List Nat) : List Nat :=
  l.tail

/-- `list_delete`: unlink the first node equal to `node`; returns `1`
(`true`) when found, `0` (`false`) when absent, together with the resulting
list. -/
def list_delete : List Nat → Nat → Bool × List Nat
  | [], _ => (false, [])
  | x :: xs, p =>
      if x = p then (true, xs)
      else
        let r := list_delete xs p
        (r.1, x :: r.2)

/-! ## buddy.h (first variant) -/

/-- `BUDDY_MAX_ORDER` (`src/buddy.h` line 16). -/
def BUDDY_MAX_ORDER : Nat := 28

/-- `BUDDY_MIN_ORDER` (`src/buddy.h` line 18): minimum block size 64 bytes. -/
def BUDDY_MIN_ORDER : Nat := 6

/-- `struct buddy_block_meta` (`src/buddy.h` lines 21-24): the header written
immediately below every user pointer. -/
structure BuddyBlockMeta where
  order : Nat
  address : Nat
  deriving DecidableEq, Repr

/-- `struct buddy_heap` (`src/buddy.h` lines 26-32).  `nodes` maps an order
index to the freelist of block addresses, `meta` is the pair-status bitset,
`data` the arena base address. -/
structure BuddyHeap where
  order : Nat
  alignment : Nat
  nodes : Nat → List Nat
  meta : Nat → Bool
  data : Nat

/-- `buddy_nbytes_query_to_index` (`src/buddy.h` lines 82-86): round the
request up to a power of two unless it already is one, and subtract its
log2 (by trailing-zeros count) from the maximum order.  The result is a
`uint8_t`, hence the reduction `% 256` of the C `int` difference. -/
def buddy_nbytes_query_to_index (nbytes order : Nat) : Nat :=
  let c := if Nat.land nbytes (nbytes - 1) ≠ 0 then pow2_roundup nbytes else nbytes
  (order + 256 - trailing_zeros_count c) % 256

/-- Scan helper of `buddy_first_splittable_node_index`: try order indices
`j - 1, j - 2, ..., 0` and return the first with a non-empty freelist. -/
def buddy_first_splittable_go (nodes : Nat → List Nat) : Nat → Option Nat
  | 0 => none
  | j + 1 => if nodes j ≠ [] then some j else buddy_first_splittable_go nodes j

/-- `buddy_first_splittable_node_index` (`src/buddy.h` lines 88-96): the
largest order index below `req` whose freelist is non-empty (`none` for the
C return value `-1`). -/
def buddy_first_splittable_node_index (req : Nat) (nodes : Nat → List Nat) : Option Nat :=
  buddy_first_splittable_go nodes req

/-- `buddy_node_update` (`src/buddy.h` lines 98-111): pop the freelist at
`order`; when splitting, push the two half-blocks onto the freelist at
`order + 1` (the upper half is pushed second, so it becomes the head). -/
def buddy_node_update (order max_order : Nat) (nodes : Nat → List Nat) (ptr : Nat)
    (split : Bool) : Nat → List Nat :=
  let nodes1 := upd nodes order (list_pop (nodes order))
  if split then
    let offset := (1 <<< (max_order - order)) >>> 1
    upd nodes1 (order + 1) (list_push (list_push (nodes1 (order + 1)) ptr) (ptr + offset))
  else nodes1

/-- `buddy_block_index` (`src/buddy.h` lines 113-119).  The C computes
`(uint32_t)((double)(1.0 / (1 << (max_order - order))) * offset + ((1 << order) - 1))`.
Both double operations are exact: `2^-(max_order-order)` is a power of two,
the product has the mantissa of `offset` (< 2^32 ≤ 2^53), and the sum adds an
integer below `2^28`, staying well inside 53 bits.  The truncating
conversion of the non-negative result therefore yields exactly
`⌊offset / 2^(max_order-order)⌋ + 2^order - 1`, the value below; the
real-valued reading is `buddy_block_index_real`, proved equal in
`buddy_block_index_real_eq`. -/
def buddy_block_index (order max_order offset : Nat) : Nat :=
  offset / 2 ^ (max_order - order) + (2 ^ order - 1)

/-- The exact real-number value of the C double expression inside
`buddy_block_index`, floored as by the truncating `uint32_t` conversion
(the value is non-negative). -/
def buddy_block_index_real (order max_order offset : Nat) : ℤ :=
  ⌊(offset : ℚ) * (1 / 2 ^ (max_order - order)) + (2 ^ order - 1)⌋

/-- `buddy_bit_position` (`src/buddy.h` lines 121-127): map a block index to
its pair-status bit, `block_index / 2 + block_index % 2`. -/
def buddy_bit_position (order max_order offset : Nat) : Nat :=
  let block_index := buddy_block_index order max_order offset
  block_index / 2 + block_index % 2

/-- `buddy_bit_update` (`src/buddy.h` lines 129-139): toggle the pair-status
bit of the block at address `ptr`. -/
def buddy_bit_update (order max_order : Nat) (bitset : Nat → Bool) (data ptr : Nat) :
    Nat → Bool :=
  let offset := ptr - data
  let bit := buddy_bit_position order max_order offset
  bit_switch bitset bit

/-- Tail of `buddy_alloc` (`src/buddy.h` lines 170-180), shared by the split
and no-split paths: read the head of `nodes[index]` as the block base,
compute the aligned user pointer, record the header, pop the freelist and
toggle the pair-status bit.  A `NULL` head (empty list) would make the C
write a header near address zero and crash; the model returns `none` there
(unreachable on well-formed states). -/
def buddy_alloc_finish (b : BuddyHeap) (index align_offset : Nat) :
    Option (Nat × BuddyBlockMeta) × BuddyHeap :=
  match b.nodes index with
  | [] => (none, b)
  | ptr_0 :: _ =>
      let ptr_1 := alignDown (ptr_0 + align_offset) b.alignment
      let m : BuddyBlockMeta := { order := index, address := ptr_0 }
      let b1 := { b with nodes := buddy_node_update index b.order b.nodes ptr_0 false }
      let b2 := { b1 with meta := buddy_bit_update index b.order b1.meta b1.data ptr_0 }
      (some (ptr_1, m), b2)

/-- One iteration of the split loop of `buddy_alloc` (`src/buddy.h` lines
161-165): read the head of `nodes[i]`, split it into `nodes[i+1]` and toggle
its pair-status bit. -/
def buddy_split_step (b : BuddyHeap) (i : Nat) : BuddyHeap :=
  let ptr_0 := (b.nodes i).headD 0
  { b with
    nodes := buddy_node_update i b.order b.nodes ptr_0 true
    meta := buddy_bit_update i b.order b.meta b.data ptr_0 }

/-- The split loop `for (i = node_index; i < index; i++)` of `buddy_alloc`,
running `n = index - node_index` iterations from `i`. -/
def buddy_split_loop : BuddyHeap → Nat → Nat → BuddyHeap
  | b, _, 0 => b
  | b, i, n + 1 => buddy_split_loop (buddy_split_step b i) (i + 1) n

/-- `buddy_alloc` (`src/buddy.h` lines 141-181).  Returns the user pointer
together with the header contents it wrote (`order`, block base address),
and the updated heap; `none` models the C `NULL` return. -/
def buddy_alloc (b : BuddyHeap) (nbytes : Nat) : Option (Nat × BuddyBlockMeta) × BuddyHeap :=
  if nbytes = 0 then (none, b)
  else
    let align_offset := b.alignment - 1 + 16
    let index := buddy_nbytes_query_to_index (nbytes + align_offset) b.order
    if b.nodes index = [] then
      match buddy_first_splittable_node_index index b.nodes with
      | none => (none, b)
      | some node_index =>
          buddy_alloc_finish (buddy_split_loop b node_index (index - node_index))
            index align_offset
    else
      buddy_alloc_finish b index align_offset

/-- Recursion of `buddy_free` (`src/buddy.h` lines 183-227), on explicit
fuel.  The C recurses through a header rewritten to `order - 1`; every call
either stops or recurses with a strictly smaller order, so fuel
`order + 1` suffices (`none` would model the unreachable case of the C
`uint8_t` order wrapping below zero).  Note the source has no `return`
after the coalesce branch: after the recursive call it falls through to the
final `list_push` and a second `bit_switch`. -/
def buddy_free_go : Nat → BuddyHeap → Nat → Nat → Option BuddyHeap
  | 0, _, _, _ => none
  | fuel + 1, b, order, ptr_0 =>
      let offset := ptr_0 - b.data
      let bit_index := buddy_bit_position order b.order offset
      if b.meta bit_index ∧ bit_index ≠ 0 then
        let buddy_offset := Nat.xor offset (2 ^ (b.order - order))
        let buddy := b.data + buddy_offset
        let b1 := { b with nodes := upd b.nodes order (list_delete (b.nodes order) buddy).2 }
        let ptr_0' := if offset > buddy_offset then buddy else ptr_0
        match buddy_free_go fuel b1 (order - 1) ptr_0' with
        | none => none
        | some b2 =>
            let b3 := { b2 with meta := bit_switch b2.meta bit_index }
            some { b3 with
                   nodes := upd b3.nodes order (list_push (b3.nodes order) ptr_0')
                   meta := bit_switch b3.meta bit_index }
      else
        some { b with
               nodes := upd b.nodes order (list_push (b.nodes order) ptr_0)
               meta := bit_switch b.meta bit_index }

/-- `buddy_free` applied to a pointer whose header holds `m` (the C reads
`m[-1]` below the user pointer; the model passes the header contents
directly). -/
def buddy_free (b : BuddyHeap) (m : BuddyBlockMeta) : Option BuddyHeap :=
  buddy_free_go (m.order + 1) b m.order m.address

/-! ## heap.h (first variant): the backing heap -/

/-- `HEAP_COUNT = bit(H_COUNT)` (`src/heap.h` line 21). -/
def HEAP_COUNT : Nat := 1

/-- `HEAP_CLEAR = bit(H_CLEAR)` (`src/heap.h` line 22). -/
def HEAP_CLEAR : Nat := 2

/-- `HEAP_DEBUG = bit(H_DEBUG)` (`src/heap.h` line 23). -/
def HEAP_DEBUG : Nat := 4

/-- `struct heap` (`src/heap.h` lines 25-28): flag set and live-allocation
counter. -/
structure Heap where
  hft : Nat
  alloc_count : Nat
  deriving DecidableEq, Repr

/-- `heap_alloc` (`src/heap.h` lines 36-60), with `malloc` supplied as the
oracle `mall`.  Returns the address and the updated heap; the counter is
bumped only under `HEAP_COUNT`.  Debug printing and the `HEAP_CLEAR`
`memset` touch no modelled state (memory contents are modelled at the call
sites that read them). -/
def heap_alloc (mall : Nat → Option Nat) (h : Heap) (nbytes : Nat) : Option Nat × Heap :=
  if nbytes = 0 then (none, h)
  else
    match mall nbytes with
    | none => (none, h)
    | some ptr =>
        (some ptr,
         if Nat.land h.hft HEAP_COUNT ≠ 0 then { h with alloc_count := h.alloc_count + 1 }
         else h)

/-- `heap_aligned_alloc` (`src/heap.h` lines 62-96).  The second validation
is modelled exactly as written in C, `nbytes & ((alignment - 1) != 0)`:
`!=` binds tighter than `&`, so the mask is the *boolean* `alignment - 1 != 0`
(i.e. `1` for any alignment above one), not `alignment - 1`.  The reserve is
`alignment - 1 + sizeof(void *)` and the aligned pointer is produced by the
usual mask; the back-pointer stored at `ptr_1[-1]` is not needed by any
claim and is not modelled. -/
def heap_aligned_alloc (mall : Nat → Option Nat) (h : Heap) (nbytes alignment : Nat) :
    Option Nat × Heap :=
  if alignment = 0 ∨ Nat.land alignment (alignment - 1) ≠ 0 then (none, h)
  else if Nat.land nbytes (if alignment - 1 ≠ 0 then 1 else 0) ≠ 0 then (none, h)
  else
    let offset := alignment - 1 + 8
    match heap_alloc mall h (nbytes + offset) with
    | (none, h') => (none, h')
    | (some ptr_0, h') => (some (alignDown (ptr_0 + offset) alignment), h')

/-- The bitset byte count computed by `buddy_heap_init` (`src/buddy.h` line
42): `((bits_count + CHAR_BIT - 1) & -CHAR_BIT) / CHAR_BIT` with
`bits_count = bit(order - BUDDY_MIN_ORDER)`; `-CHAR_BIT` converts to the
`unsigned` mask `2^32 - 8`. -/
def buddy_meta_sz (order : Nat) : Nat :=
  Nat.land (2 ^ (order - BUDDY_MIN_ORDER) + 7) (2 ^ 32 - 8) / 8

/-- `buddy_heap_init` (`src/buddy.h` lines 34-71).  `junk` stands for the
contents `malloc` happens to leave in the bitset allocation: the source
never zeroes the bitset, so its initial contents are `junk` unless the
backing heap was created with `HEAP_CLEAR` (whose `memset` in `heap_alloc`
zero-fills every allocation).  On the failure paths the source frees
nothing it has already allocated.  The freelist head array `nodes`, which
the source never initialises beyond pushing the arena onto `nodes[0]`, is
taken zero-initialised (all lists empty). -/
def buddy_heap_init (mall : Nat → Option Nat) (h : Heap) (order alignment : Nat)
    (junk : Nat → Bool) : Option BuddyHeap × Heap :=
  if ¬(BUDDY_MIN_ORDER < order ∧ order ≤ BUDDY_MAX_ORDER) then (none, h)
  else
    match heap_aligned_alloc mall h (buddy_meta_sz order) 32 with
    | (none, h') => (none, h')
    | (some _, h') =>
        match heap_aligned_alloc mall h' (2 ^ order) alignment with
        | (none, h'') => (none, h'')
        | (some dataAddr, h'') =>
            (some { order := order, alignment := alignment,
                    nodes := upd (fun _ => []) 0 (list_push [] dataAddr),
                    meta := if Nat.land h.hft HEAP_CLEAR ≠ 0 then fun _ => false else junk,
                    data := dataAddr },
             h'')

/-! ## block.h -/

/-- `BLOCK_HEAP_MAX = UCHAR_MAX` (`src/block.h` line 32). -/
def BLOCK_HEAP_MAX : Nat := 255

/-- `struct block_heap` (`src/block.h` lines 35-40).  `cells i` is the first
byte of cell `i` (the only byte of a cell the code reads or writes: the
in-place freelist index). -/
structure BlockHeap where
  block_size : Nat
  nblocks : Nat
  first_free_block : Nat
  data : Nat
  cells : Nat → Nat

/-- `block_heap_reset` (`src/block.h` lines 42-48): thread the freelist
through the cells; cell `i` receives `i + 1` and the last cell receives
`BLOCK_HEAP_MAX`.  Structured on the count `n` (the C recursion parameter);
the C never calls it with `n = 0`. -/
def block_heap_reset (cells : Nat → Nat) (idx : Nat) : Nat → (Nat → Nat)
  | 0 => cells
  | n + 1 =>
      let cells' := upd cells idx (BLOCK_HEAP_MAX - n)
      if n > 0 then block_heap_reset cells' (idx + 1) n else cells'

/-- `block_heap_init` (`src/block.h` lines 50-58): allocate
`nbytes * BLOCK_HEAP_MAX` bytes and thread the freelist.  A failed backing
allocation would make the C write through `NULL` inside `block_heap_reset`;
the model returns `none` there. -/
def block_heap_init (mall : Nat → Option Nat) (h : Heap) (nbytes alignment : Nat) :
    Option BlockHeap × Heap :=
  match heap_aligned_alloc mall h (nbytes * BLOCK_HEAP_MAX) alignment with
  | (none, h') => (none, h')
  | (some d, h') =>
      (some { block_size := nbytes, nblocks := BLOCK_HEAP_MAX, first_free_block := 0,
              data := d, cells := block_heap_reset (fun _ => 0) 0 BLOCK_HEAP_MAX },
       h')

/-- `block_alloc` (`src/block.h` lines 60-71).  Returns `NULL` when
`nblocks == BLOCK_HEAP_MAX`; otherwise hands out the cell named by
`first_free_block`, reads the next free index from its first byte, and
decrements the `uint8_t` counter (wrapping at zero). -/
def block_alloc (a : BlockHeap) : Option Nat × BlockHeap :=
  if a.nblocks = BLOCK_HEAP_MAX then (none, a)
  else
    let ptr := a.data + a.block_size * a.first_free_block
    (some ptr,
     { a with first_free_block := a.cells a.first_free_block,
              nblocks := (a.nblocks + 256 - 1) % 256 })

/-- `block_is_valid` (`src/block.h` lines 73-79).  The `nblocks` parameter is
accepted and ignored exactly as in the source (the range check uses
`BLOCK_HEAP_MAX`). -/
def block_is_valid (ptr head : Nat) (_nblocks : Nat) (block_size : Nat) : Bool :=
  let tail := head + BLOCK_HEAP_MAX * block_size
  head ≤ ptr ∧ ptr < tail ∧ (ptr - head) % block_size = 0

/-- `block_free` (`src/block.h` lines 81-96): validate the pointer, write the
current head index into the cell's first byte (`int` stored into `uint8_t`,
hence `% 256`), make the cell the head, and *decrement* the counter (the
source decrements, it does not increment). -/
def block_free (al : BlockHeap) (ptr : Nat) : BlockHeap :=
  if ptr = 0 then al
  else if ¬ block_is_valid ptr al.data al.nblocks al.block_size then al
  else
    let index := ((ptr - al.data) / al.block_size) % 256
    { al with cells := upd al.cells index (al.first_free_block % 256),
              first_free_block := index,
              nblocks := (al.nblocks + 256 - 1) % 256 }

/-! ## scratch allocator (src/unnamed/part_003) -/

/-- `struct scratch_heap`. -/
structure ScratchHeap where
  head : Nat
  tail : Nat
  mem : Nat
  deriving DecidableEq, Repr

/-- The local `alloc` amount of `scratch_alloc` (line 56): the request
itself when `head` is already aligned, otherwise padded by
`alignment - 1`. -/
def scratch_advance (head nbytes alignment : Nat) : Nat :=
  if head % alignment = 0 then nbytes else nbytes + alignment - 1

/-- `scratch_alloc` (`src/unnamed/part_003` lines 49-69): reject a
non-power-of-two alignment, fail when advancing `head` would pass `tail`,
otherwise advance `head` and return the old head, aligned up when padding
was added. -/
def scratch_alloc (scr : ScratchHeap) (nbytes alignment : Nat) : Option Nat × ScratchHeap :=
  if alignment = 0 ∨ Nat.land alignment (alignment - 1) ≠ 0 then (none, scr)
  else
    let alloc := scratch_advance scr.head nbytes alignment
    if scr.head + alloc > scr.tail then (none, scr)
    else
      let ptr_0 := scr.head
      let scr' := { scr with head := scr.head + alloc }
      (some (if alloc > nbytes then alignDown (ptr_0 + (alignment - 1)) alignment else ptr_0),
       scr')

/-- `scratch_heap_reset` (`src/unnamed/part_003` lines 79-85): wind `head`
back to the region base. -/
def scratch_heap_reset (scr : ScratchHeap) : ScratchHeap :=
  { scr with head := scr.mem }

/-- Run a sequence of `(nbytes, alignment)` requests through
`scratch_alloc`, collecting the returned pointers. -/
def scratch_run : ScratchHeap → List (Nat × Nat) → List (Option Nat) × ScratchHeap
  | scr, [] => ([], scr)
  | scr, (n, al) :: rest =>
      let r := scratch_alloc scr n al
      let rs := scratch_run r.2 rest
      (r.1 :: rs.1, rs.2)

/-! ## Concrete states used by the evaluations

The scenario of spec §8 ("Concrete scenarios (K=10, K_min=6, A=8)"): a buddy
heap of maximum order 10, user alignment 8, arena base address 2048
(a multiple of the alignment, as `heap_aligned_alloc` guarantees for the
arena).  This is exactly the quiescent state `buddy_heap_init` leaves behind
over a `HEAP_CLEAR` backing heap: `freelist[0]` holds the arena base, every
other freelist is empty, every pair-status bit is 0. -/

def initHeap10 : BuddyHeap :=
  { order := 10, alignment := 8,
    nodes := fun i => if i = 0 then [2048] else [],
    meta := fun _ => false, data := 2048 }

/-- The heap state right after `p = buddy_alloc(initHeap10, 100)`
(the request lands at order index 3; the returned user pointer is 2960 and
its header records order 3, block base 2944). -/
def allocState100 : BuddyHeap :=
  (buddy_alloc initHeap10 100).2

/-- `buddy_free(buddy_alloc(100))` on the initial K = 10, A = 8 heap:
the round-trip of spec §8.5. -/
def roundtrip100 : Option BuddyHeap :=
  match buddy_alloc initHeap10 100 with
  | (some (_, m), b1) => buddy_free b1 m
  | _ => none

/-- A freshly initialised block heap, element size 64, over an
always-succeeding backing allocation. -/
def freshBlockHeap : Option BlockHeap :=
  (block_heap_init (fun _ => some 4096) { hft := 0, alloc_count := 0 } 64 8).1

/-! ## Claims -/

/-- Claim C1 (refuted — the code violates the spec): free(alloc(n)) is
claimed to restore the exact pre-alloc state (freelist[0] = arena base
alone, all other freelists empty, all pair-status bits 0).  Evaluating
`buddy_free(buddy_alloc(100))` on the initialised K = 10, A = 8 heap
instead leaves stale copies of the coalesced bases on freelists 1-3 and
bits 1, 3, 7 set, because `buddy_free` has no `return` after its coalesce
branch and falls through to the final push and second bit toggle. -/
theorem buddy_roundtrip_broken :
    (roundtrip100.map fun s => (s.nodes 0, s.nodes 1, s.nodes 2, s.nodes 3))
      = some ([2048], [2048], [2560], [2816])
    ∧ (roundtrip100.map fun s => (s.meta 0, s.meta 1, s.meta 3, s.meta 7))
        = some (false, true, true, true)
    ∧ initHeap10.nodes 1 = [] ∧ initHeap10.meta 1 = false := by
  refine ⟨by decide, by decide, rfl, rfl⟩

/-- Claim C2 (refuted — the code violates the spec): in the coalesce case of
`buddy_free`, the claim says the pair-status bit at (k, off) is toggled
exactly once and the merged block is not pushed onto freelist[k].  Freeing
the order-3 block at offset 896 of `allocState100` (its bit 7 is set, so the
coalesce case is taken) instead leaves bit 7 *set* (toggled twice, net
unchanged) and pushes the merged base 2816 back onto freelist[3]: the
missing `return` makes the coalesce branch fall through into the
no-coalesce epilogue. -/
theorem buddy_free_coalesce_fallthrough :
    allocState100.meta 7 = true
    ∧ ((buddy_free allocState100 { order := 3, address := 2944 }).map fun s =>
          (s.nodes 3, s.meta 7))
        = some ([2816], true) := by
  constructor
  · decide
  · decide

/-- Claim C3 (refuted — the code violates the spec): an oversize request is
claimed to return null with no state change.  For `buddy_alloc(2000)` on the
K = 10, A = 8 heap the queried size is 2000 + 23 = 2023, which rounds up to
2048 = 2^11 > 2^10; the `uint8_t` order index wraps to (10 − 11) mod 256 =
255, and the code then reads `b->nodes[255]` — far past the end of the
28-entry `nodes` array (undefined behaviour), instead of failing. -/
theorem buddy_alloc_oversize_index_out_of_range :
    buddy_nbytes_query_to_index (2000 + 23) 10 = 255 ∧ BUDDY_MAX_ORDER ≤ 255 := by
  constructor
  · decide
  · decide

/-- Claim C4 (refuted — the code violates the spec): the size-to-order-index
translation is claimed to saturate to the K_min-order index K − K_min for
n < 2^K_min.  The code has no saturation: for n = 32 < 64 = 2^K_min at
K = 10 it returns 10 − log2(32) = 5, not 10 − 6 = 4. -/
theorem buddy_query_index_no_saturation :
    buddy_nbytes_query_to_index 32 10 = 5 ∧ 10 - BUDDY_MIN_ORDER = 4 := by
  constructor
  · decide
  · decide

/-- Claim C5 (refuted — the code violates the spec): `buddy_heap_init` is
claimed to zero the pair-status bitset and, on any failure, release every
already-acquired resource.  With a counting backing heap and an alignment
of 3 (not a power of two) the init fails — but the bitset allocation made
before the arena attempt is never freed (`alloc_count` stays 1); and a
*successful* init over a non-`HEAP_CLEAR` heap leaves the bitset holding
whatever `malloc` returned (here: all ones), never zeroing it. -/
theorem buddy_heap_init_leak_and_unzeroed :
    (buddy_heap_init (fun _ => some 4096) { hft := HEAP_COUNT, alloc_count := 0 } 10 3
        (fun _ => true)).1.isSome = false
    ∧ (buddy_heap_init (fun _ => some 4096) { hft := HEAP_COUNT, alloc_count := 0 } 10 3
        (fun _ => true)).2.alloc_count = 1
    ∧ ((buddy_heap_init (fun _ => some 4096) { hft := 0, alloc_count := 0 } 10 8
        (fun _ => true)).1.map fun b => b.meta 0) = some true := by
  refine ⟨by decide, by decide, by decide⟩

/-- The double arithmetic inside `buddy_block_index` is exact, so its
truncated result agrees with the natural-number division formula, for every
offset and order. -/
theorem buddy_block_index_real_eq (order max_order offset : Nat) :
    buddy_block_index_real order max_order offset
      = (buddy_block_index order max_order offset : ℤ) := by
  unfold buddy_block_index_real buddy_block_index
  have h1 : ((2 : ℚ) ^ order - 1) = ((2 ^ order - 1 : ℤ) : ℚ) := by push_cast; ring
  have h2 : (offset : ℚ) * (1 / 2 ^ (max_order - order))
      = (offset : ℚ) / ((2 ^ (max_order - order) : ℕ) : ℚ) := by
    push_cast
    ring
  rw [h1, h2, Int.floor_add_int]
  have h0 : (0 : ℚ) ≤ (offset : ℚ) / ((2 ^ (max_order - order) : ℕ) : ℚ) := by positivity
  have h3 : ⌊(offset : ℚ) / ((2 ^ (max_order - order) : ℕ) : ℚ)⌋
      = ((offset / 2 ^ (max_order - order) : ℕ) : ℤ) := by
    rw [← Nat.floor_div_eq_div (α := ℚ) offset (2 ^ (max_order - order))]
    rw [← Int.floor_toNat, Int.toNat_of_nonneg (Int.floor_nonneg.mpr h0)]
  rw [h3]
  have h4 : 1 ≤ 2 ^ order := Nat.one_le_two_pow
  push_cast [h4]
  ring

/-- Claim C6 (confirmed): for every order index `k ≤ K − K_min` and every
offset that is a multiple of the order-`k` block size `2^(K−k)` inside the
arena, `buddy_bit_position` computes exactly the spec's mapping
ceil((block_index_within_order + (2^k − 1)) / 2), and the intermediate
floating-point multiplication of `buddy_block_index` is exact (its real
value floors to the integer formula). -/
theorem buddy_bit_position_spec (k K off : Nat) (_hK : BUDDY_MIN_ORDER < K)
    (_hk : k ≤ K - BUDDY_MIN_ORDER) (_hdvd : 2 ^ (K - k) ∣ off) (_hoff : off < 2 ^ K) :
    buddy_block_index_real k K off = (buddy_block_index k K off : ℤ)
    ∧ buddy_bit_position k K off = (off / 2 ^ (K - k) + (2 ^ k - 1) + 1) / 2 := by
  refine ⟨buddy_block_index_real_eq k K off, ?_⟩
  unfold buddy_bit_position buddy_block_index
  dsimp only
  generalize off / 2 ^ (K - k) + (2 ^ k - 1) = m
  omega

/-- Witness for C6 at K = 10, k = 2, off = 768 (the order-2 block split off
in scenario S1): its pair-status bit is bit 3. -/
theorem buddy_bit_position_spec_witness :
    (BUDDY_MIN_ORDER < 10 ∧ 2 ≤ 10 - BUDDY_MIN_ORDER ∧ 2 ^ (10 - 2) ∣ 768 ∧ 768 < 2 ^ 10)
    ∧ (buddy_block_index_real 2 10 768 = (buddy_block_index 2 10 768 : ℤ)
       ∧ buddy_bit_position 2 10 768 = (768 / 2 ^ (10 - 2) + (2 ^ 2 - 1) + 1) / 2) :=
  ⟨⟨by decide, by decide, by decide, by decide⟩,
   buddy_bit_position_spec 2 10 768 (by decide) (by decide) (by decide) (by decide)⟩

/-- The masked user pointer `(base + A − 1 + 16) & ~(A − 1)` is a multiple
of the power-of-two alignment `A = 2^a` and leaves the full 16-byte header
between the block base and itself. -/
theorem alignDown_user_ptr (addr a : Nat) :
    alignDown (addr + (2 ^ a - 1 + 16)) (2 ^ a) % 2 ^ a = 0
    ∧ addr + 16 ≤ alignDown (addr + (2 ^ a - 1 + 16)) (2 ^ a) := by
  unfold alignDown
  have hand : Nat.land (addr + (2 ^ a - 1 + 16)) (2 ^ a - 1)
      = (addr + (2 ^ a - 1 + 16)) % 2 ^ a := Nat.and_pow_two_sub_one_eq_mod _ _
  rw [hand]
  have hpos : 0 < 2 ^ a := Nat.pos_pow_of_pos a (by omega)
  have h1 : (addr + (2 ^ a - 1 + 16)) % 2 ^ a < 2 ^ a := Nat.mod_lt _ hpos
  have h2 := Nat.div_add_mod (addr + (2 ^ a - 1 + 16)) (2 ^ a)
  constructor
  · have h3 : addr + (2 ^ a - 1 + 16) - (addr + (2 ^ a - 1 + 16)) % 2 ^ a
        = 2 ^ a * ((addr + (2 ^ a - 1 + 16)) / 2 ^ a) := by omega
    rw [h3]
    exact Nat.mul_mod_right _ _
  · omega

/-- `buddy_split_loop` never touches the `alignment` field. -/
theorem buddy_split_loop_alignment (n : Nat) :
    ∀ (b : BuddyHeap) (i : Nat), (buddy_split_loop b i n).alignment = b.alignment := by
  induction n with
  | zero => intro b i; rfl
  | succ n ih =>
      intro b i
      show (buddy_split_loop (buddy_split_step b i) (i + 1) n).alignment = _
      rw [ih]
      rfl

/-- Any successful `buddy_alloc_finish` returns the masked user pointer of
the block base it records in the header. -/
theorem buddy_alloc_finish_some (b : BuddyHeap) (idx ao p : Nat) (m : BuddyBlockMeta)
    (h : (buddy_alloc_finish b idx ao).1 = some (p, m)) :
    p = alignDown (m.address + ao) b.alignment := by
  unfold buddy_alloc_finish at h
  cases hn : b.nodes idx with
  | nil => rw [hn] at h; exact absurd h (by simp)
  | cons x xs =>
      rw [hn] at h
      simp only [Option.some.injEq, Prod.mk.injEq] at h
      obtain ⟨hp, hm⟩ := h
      subst hm
      exact hp.symm

/-- Claim C7 (confirmed): for a power-of-two user alignment `A = 2^a`, every
non-null pointer `p` returned by `buddy_alloc` is a multiple of `A`, and the
16-byte header written immediately below `p` lies entirely at or above the
block base recorded in it: `base + 16 ≤ p` (the reserve `A − 1 + 16` always
leaves room for the header between base and user pointer). -/
theorem buddy_alloc_alignment (b : BuddyHeap) (n a p : Nat) (m : BuddyBlockMeta)
    (ha : b.alignment = 2 ^ a) (h : (buddy_alloc b n).1 = some (p, m)) :
    p % 2 ^ a = 0 ∧ m.address + 16 ≤ p := by
  have hmain : p = alignDown (m.address + (b.alignment - 1 + 16)) b.alignment := by
    unfold buddy_alloc at h
    by_cases h0 : n = 0
    · rw [h0] at h; exact absurd h (by simp)
    rw [if_neg h0] at h
    dsimp only at h
    split at h
    · -- split path
      cases hsp : buddy_first_splittable_node_index
          (buddy_nbytes_query_to_index (n + (b.alignment - 1 + 16)) b.order) b.nodes with
      | none => rw [hsp] at h; exact absurd h (by simp)
      | some j =>
          rw [hsp] at h
          have := buddy_alloc_finish_some _ _ _ _ _ h
          rwa [buddy_split_loop_alignment] at this
    · exact buddy_alloc_finish_some _ _ _ _ _ h
  rw [ha] at hmain
  rw [hmain]
  exact alignDown_user_ptr m.address a

/-- Witness for C7: the allocation of scenario S2 (`buddy_alloc(100)` on the
K = 10, A = 8 heap) returns user pointer 2960 with header base 2944:
2960 is a multiple of 8 and the header fits above the base. -/
theorem buddy_alloc_alignment_witness :
    initHeap10.alignment = 2 ^ 3
    ∧ (buddy_alloc initHeap10 100).1 = some (2960, { order := 3, address := 2944 })
    ∧ (2960 % 2 ^ 3 = 0 ∧ 2944 + 16 ≤ 2960) :=
  ⟨by decide, by decide,
   buddy_alloc_alignment initHeap10 100 3 2960 { order := 3, address := 2944 }
     (by decide) (by decide)⟩

/-- Claim C9 (refuted — the code violates the spec): `block_alloc` is
claimed to fail exactly when the pool is full and `nblocks` to satisfy
`nblocks = configured_max − live_count`.  On a freshly initialised pool
(zero live cells, `nblocks = 255 = BLOCK_HEAP_MAX`) the very first
`block_alloc` already returns null, because the guard compares `nblocks`
against `BLOCK_HEAP_MAX` — the *initial* value; and `block_free` of an
in-range, block-aligned pointer *decrements* `nblocks` to 254 instead of
increasing the free capacity. -/
theorem block_alloc_fails_when_empty :
    (freshBlockHeap.map fun a =>
        ((block_alloc a).1.isSome, a.nblocks, (block_free a a.data).nblocks))
      = some (false, 255, 254) := by
  decide

/-- Rounding down to a multiple of `2^e` with the C mask produces a multiple
of `2^e`. -/
theorem alignDown_two_pow_mod (x e : Nat) : alignDown x (2 ^ e) % 2 ^ e = 0 := by
  unfold alignDown
  have hand : Nat.land x (2 ^ e - 1) = x % 2 ^ e := Nat.and_pow_two_sub_one_eq_mod _ _
  rw [hand]
  have h2 := Nat.div_add_mod x (2 ^ e)
  have h3 : x - x % 2 ^ e = 2 ^ e * (x / 2 ^ e) := by omega
  rw [h3]
  exact Nat.mul_mod_right _ _

/-- A power of two passes the power-of-two guard of `heap_aligned_alloc`. -/
theorem land_two_pow_self (a : Nat) : Nat.land (2 ^ a) (2 ^ a - 1) = 0 := by
  have h : (2 ^ a) &&& (2 ^ a - 1) = 2 ^ a % 2 ^ a := Nat.and_pow_two_sub_one_eq_mod _ _
  rw [Nat.mod_self] at h
  exact h

/-- Claim C8 (confirmed): the intended size-is-a-multiple-of-alignment check
in `heap_aligned_alloc` actually computes `nbytes & ((alignment - 1) != 0)`
(`!=` binds tighter than `&`).  Hence, for every power-of-two alignment
greater than one: the call fails exactly on odd sizes — it returns `NULL`
whenever `nbytes` is odd, and it never rejects an even `nbytes` that is not
a multiple of the alignment (with a succeeding `malloc` it returns non-null
for every even size).  Consequently `buddy_heap_init` fails outright
whenever its computed bitset byte size is odd. -/
theorem heap_aligned_alloc_parity_check :
    (∀ (mall : Nat → Option Nat) (h : Heap) (n a : Nat), 1 ≤ a → n % 2 = 1 →
        (heap_aligned_alloc mall h n (2 ^ a)).1 = none)
    ∧ (∀ (mall : Nat → Option Nat) (h : Heap) (n a : Nat), 1 ≤ a →
        (∀ s, (mall s).isSome) → n % 2 = 0 →
        (heap_aligned_alloc mall h n (2 ^ a)).1.isSome)
    ∧ (∀ (mall : Nat → Option Nat) (h : Heap) (K A : Nat) (junk : Nat → Bool),
        buddy_meta_sz K % 2 = 1 →
        (buddy_heap_init mall h K A junk).1.isSome = false) := by
  have hpow : ∀ a : Nat, ¬(2 ^ a = 0 ∨ Nat.land (2 ^ a) (2 ^ a - 1) ≠ 0) := by
    intro a
    push_neg
    exact ⟨(Nat.pow_pos (by omega)).ne', land_two_pow_self a⟩
  have hmask : ∀ (n a : Nat), 1 ≤ a →
      Nat.land n (if 2 ^ a - 1 ≠ 0 then 1 else 0) = n % 2 := by
    intro n a ha
    have h2 : 2 ≤ 2 ^ a := by
      calc 2 = 2 ^ 1 := by norm_num
        _ ≤ 2 ^ a := Nat.pow_le_pow_right (by omega) ha
    rw [if_pos (by omega)]
    exact Nat.and_one_is_mod n
  refine ⟨?_, ?_, ?_⟩
  · intro mall h n a ha hodd
    unfold heap_aligned_alloc
    rw [if_neg (hpow a), if_pos (by rw [hmask n a ha, hodd]; omega)]
  · intro mall h n a ha hm heven
    unfold heap_aligned_alloc
    rw [if_neg (hpow a), if_neg (by rw [hmask n a ha, heven]; omega)]
    dsimp only
    unfold heap_alloc
    rw [if_neg (by omega)]
    obtain ⟨v, hv⟩ := Option.isSome_iff_exists.mp (hm (n + (2 ^ a - 1 + 8)))
    rw [hv]
    rfl
  · intro mall h K A junk hodd
    unfold buddy_heap_init
    split
    · rfl
    · have h32 : heap_aligned_alloc mall h (buddy_meta_sz K) 32 = (none, h) := by
        unfold heap_aligned_alloc
        rw [if_neg (by decide)]
        have h1 : (if (32 : Nat) - 1 ≠ 0 then (1 : Nat) else 0) = 1 := by norm_num
        have h2 : Nat.land (buddy_meta_sz K) 1 = buddy_meta_sz K % 2 :=
          Nat.and_one_is_mod _
        rw [if_pos (by rw [h1, h2, hodd]; omega)]
      rw [h32]
      rfl

/-- Witness for C8: with an always-succeeding `malloc`, an odd request of
9 bytes at alignment 8 is rejected, and `buddy_heap_init` at K = 7 (bitset
byte size 1, odd) fails. -/
theorem heap_aligned_alloc_parity_check_witness :
    ((1 : Nat) ≤ 3 ∧ (9 : Nat) % 2 = 1
      ∧ (heap_aligned_alloc (fun _ => some 64) { hft := 0, alloc_count := 0 } 9 (2 ^ 3)).1
          = none)
    ∧ (buddy_meta_sz 7 % 2 = 1
      ∧ (buddy_heap_init (fun _ => some 64) { hft := 0, alloc_count := 0 } 7 8
          (fun _ => false)).1.isSome = false) :=
  ⟨⟨by decide, by decide,
    heap_aligned_alloc_parity_check.1 (fun _ => some 64) { hft := 0, alloc_count := 0 } 9 3
      (by decide) (by decide)⟩,
   ⟨by decide,
    heap_aligned_alloc_parity_check.2.2 (fun _ => some 64) { hft := 0, alloc_count := 0 } 7 8
      (fun _ => false) (by decide)⟩⟩

/-- `scratch_alloc` never changes the `mem` and `tail` fields. -/
theorem scratch_alloc_mem_tail (s : ScratchHeap) (n al : Nat) :
    (scratch_alloc s n al).2.mem = s.mem ∧ (scratch_alloc s n al).2.tail = s.tail := by
  unfold scratch_alloc
  split
  · exact ⟨rfl, rfl⟩
  · dsimp only
    split
    · exact ⟨rfl, rfl⟩
    · exact ⟨rfl, rfl⟩

/-- `scratch_run` never changes the `mem` and `tail` fields. -/
theorem scratch_run_mem_tail (reqs : List (Nat × Nat)) :
    ∀ s : ScratchHeap,
      (scratch_run s reqs).2.mem = s.mem ∧ (scratch_run s reqs).2.tail = s.tail := by
  induction reqs with
  | nil => intro s; exact ⟨rfl, rfl⟩
  | cons r rest ih =>
      intro s
      obtain ⟨n, al⟩ := r
      have h1 := scratch_alloc_mem_tail s n al
      have h2 := ih (scratch_alloc s n al).2
      exact ⟨h2.1.trans h1.1, h2.2.trans h1.2⟩

/-- Claim C10 (confirmed): for a power-of-two alignment `2^a`,
`scratch_alloc` returns pointers aligned to `2^a` and returns null exactly
when advancing `head` by the (possibly padded) amount would pass `tail`;
`scratch_heap_reset` winds `head` back to the region base, so replaying the
same request sequence after a reset returns exactly the same pointers
(hence identical offsets from the region base) as the first run. -/
theorem scratch_alloc_props (a n : Nat) (scr : ScratchHeap) (reqs : List (Nat × Nat))
    (h0 : scr.head = scr.mem) :
    (∀ (s : ScratchHeap) (p : Nat) (s' : ScratchHeap),
        scratch_alloc s n (2 ^ a) = (some p, s') → p % 2 ^ a = 0)
    ∧ ((scratch_alloc scr n (2 ^ a)).1 = none
        ↔ scr.tail < scr.head + scratch_advance scr.head n (2 ^ a))
    ∧ (scratch_heap_reset scr).head = scr.mem
    ∧ (scratch_run (scratch_heap_reset (scratch_run scr reqs).2) reqs).1
        = (scratch_run scr reqs).1 := by
  have hguard : ∀ s : ScratchHeap, ¬(2 ^ a = 0 ∨ Nat.land (2 ^ a) (2 ^ a - 1) ≠ 0) := by
    intro _
    push_neg
    exact ⟨(Nat.pow_pos (by omega)).ne', land_two_pow_self a⟩
  refine ⟨?_, ?_, rfl, ?_⟩
  · intro s p s' h
    unfold scratch_alloc at h
    rw [if_neg (hguard s)] at h
    dsimp only at h
    split at h
    · exact absurd h (by simp)
    · simp only [Prod.mk.injEq, Option.some.injEq] at h
      obtain ⟨hp, _⟩ := h
      by_cases hc : scratch_advance s.head n (2 ^ a) > n
      · rw [if_pos hc] at hp
        rw [← hp]
        exact alignDown_two_pow_mod _ _
      · rw [if_neg hc] at hp
        by_cases hh : s.head % 2 ^ a = 0
        · rw [← hp]; exact hh
        · have ha1 : scratch_advance s.head n (2 ^ a) = n + 2 ^ a - 1 := by
            unfold scratch_advance
            rw [if_neg hh]
          have h1 : 1 ≤ 2 ^ a := Nat.one_le_two_pow
          have h2 : 2 ^ a = 1 := by omega
          rw [h2]
          exact Nat.mod_one p
  · unfold scratch_alloc
    rw [if_neg (hguard scr)]
    dsimp only
    split
    · case isTrue h => exact iff_of_true rfl h
    · case isFalse h => exact iff_of_false (by simp) h
  · have h1 := scratch_run_mem_tail reqs scr
    have hreset : scratch_heap_reset (scratch_run scr reqs).2 = scr := by
      unfold scratch_heap_reset
      cases hs : scr with
      | mk hd tl mm =>
          rw [hs] at h1 h0
          have hm : (scratch_run (ScratchHeap.mk hd tl mm) reqs).2.mem = mm := h1.1
          have ht : (scratch_run (ScratchHeap.mk hd tl mm) reqs).2.tail = tl := h1.2
          have hh : hd = mm := h0
          calc ({ (scratch_run (ScratchHeap.mk hd tl mm) reqs).2 with
                  head := (scratch_run (ScratchHeap.mk hd tl mm) reqs).2.mem } : ScratchHeap)
              = ScratchHeap.mk mm tl mm := by rw [show ∀ s : ScratchHeap,
                  ({ s with head := s.mem } : ScratchHeap) = ScratchHeap.mk s.mem s.tail s.mem
                  from fun _ => rfl, hm, ht]
            _ = ScratchHeap.mk hd tl mm := by rw [hh]
    rw [hreset]

/-- Witness for C10: a concrete scratch region `[100, 164)` with base 100,
request size 5 at alignment 8, and the two-request replay sequence
`[(5, 8), (3, 4)]`. -/
theorem scratch_alloc_props_witness :
    ((⟨100, 164, 100⟩ : ScratchHeap).head = (⟨100, 164, 100⟩ : ScratchHeap).mem)
    ∧ ((∀ (s : ScratchHeap) (p : Nat) (s' : ScratchHeap),
          scratch_alloc s 5 (2 ^ 3) = (some p, s') → p % 2 ^ 3 = 0)
       ∧ ((scratch_alloc ⟨100, 164, 100⟩ 5 (2 ^ 3)).1 = none
           ↔ (⟨100, 164, 100⟩ : ScratchHeap).tail
               < (⟨100, 164, 100⟩ : ScratchHeap).head
                 + scratch_advance (⟨100, 164, 100⟩ : ScratchHeap).head 5 (2 ^ 3))
       ∧ (scratch_heap_reset ⟨100, 164, 100⟩).head = (⟨100, 164, 100⟩ : ScratchHeap).mem
       ∧ (scratch_run (scratch_heap_reset (scratch_run ⟨100, 164, 100⟩ [(5, 8), (3, 4)]).2)
            [(5, 8), (3, 4)]).1
           = (scratch_run ⟨100, 164, 100⟩ [(5, 8), (3, 4)]).1) :=
  ⟨rfl, scratch_alloc_props 3 5 ⟨100, 164, 100⟩ [(5, 8), (3, 4)] rfl⟩

end Allocators
